import Mathlib

/-!
Shallow embedding of the pointer-input coordination subsystem of the
aminal terminal emulator (files gui/scrollbar.go, gui/mouse.go).

Pixel coordinates (Go float32/float64) are embedded as rationals, scroll
positions (Go int) as integers, Go uint16 conversion as reduction modulo
2^16, and the Go float-to-int conversion as truncation toward zero.
Byte output of the protocol encoder is a list of naturals below 256; the
Go fmt %c verb is embedded by an explicit UTF-8 encoder, because it
renders a rune as its UTF-8 byte sequence, not as a single raw byte.
-/

namespace Aminal

/-! ### Rectangle geometry (scrollbar.go, ScreenRectangle) -/

/-- Axis-aligned rectangle in pixel space, fields as in scrollbar.go. -/
structure ScreenRectangle where
  left : ℚ
  top : ℚ
  right : ℚ
  bottom : ℚ
deriving DecidableEq

/-- scrollbar.go line 48: width = right - left. -/
def ScreenRectangle.width (sr : ScreenRectangle) : ℚ := sr.right - sr.left

/-- scrollbar.go line 52: height = bottom - top. -/
def ScreenRectangle.height (sr : ScreenRectangle) : ℚ := sr.bottom - sr.top

/-- scrollbar.go line 56: containment, left/top inclusive, right/bottom
exclusive. -/
def ScreenRectangle.isInside (sr : ScreenRectangle) (x y : ℚ) : Bool :=
  decide (sr.left ≤ x) && decide (x < sr.right) &&
    decide (sr.top ≤ y) && decide (y < sr.bottom)

/-! ### Scrollbar state (scrollbar.go, struct scrollbar)

The GL handles (program, vbo, vao, uniform locations) take no part in the
event logic and are omitted. -/

/-- Hit-test outcome, scrollbar.go lines 33-41. -/
inductive scrollbarPart where
  | UpperArrow
  | UpperSpace
  | Thumb
  | BottomSpace
  | BottomArrow
deriving DecidableEq

/-- Scrollbar state, scrollbar.go lines 61-81 (GL fields omitted). -/
structure scrollbar where
  position : ScreenRectangle
  positionUpperArrow : ScreenRectangle
  positionBottomArrow : ScreenRectangle
  positionThumb : ScreenRectangle
  scrollPosition : ℤ
  maxScrollPosition : ℤ
  thumbIsDragging : Bool
  startedDraggingAtPosition : ℤ
  startedDraggingAtThumbTop : ℚ
  offsetInThumbY : ℚ
  scrollPositionDelta : ℤ
deriving DecidableEq

/-- scrollbar.go lines 175-203, recalcElementPositions: recomputes the
arrow and thumb zone rectangles from the bounding rectangle and the
scroll position. -/
def scrollbar.recalcElementPositions (sb : scrollbar) : scrollbar :=
  let arrowHeight := sb.position.width
  let positionUpperArrow : ScreenRectangle :=
    { left := 0, top := 0, right := sb.position.width, bottom := arrowHeight }
  let positionBottomArrow : ScreenRectangle :=
    { left := positionUpperArrow.left
      top := sb.position.height - arrowHeight
      right := positionUpperArrow.right
      bottom := sb.position.height }
  let thumbHeight := sb.position.width
  let thumbTop :=
    arrowHeight +
      (if sb.maxScrollPosition ≠ 0 then
        ((sb.scrollPosition : ℚ) *
            (sb.position.height - thumbHeight - arrowHeight * 2)) /
          (sb.maxScrollPosition : ℚ)
      else 0)
  { sb with
    positionUpperArrow := positionUpperArrow
    positionBottomArrow := positionBottomArrow
    positionThumb :=
      { left := 0, top := thumbTop, right := sb.position.width
        bottom := thumbTop + thumbHeight } }

/-- scrollbar.go lines 262-275, setPosition. -/
def scrollbar.setPosition (sb : scrollbar) (max position : ℤ) : scrollbar :=
  let max2 := if max ≤ 0 then position else max
  let position2 := if position > max2 then max2 else position
  scrollbar.recalcElementPositions
    { sb with maxScrollPosition := max2, scrollPosition := position2 }

/-- scrollbar.go lines 277-310, mouseHitTest: converts to control-local
coordinates and classifies the point.  The source initialises the result
to Thumb, overwrites it with UpperSpace when inside the derived upper
rectangle, and then overwrites it with BottomSpace when inside the
derived bottom rectangle; that mutation sequence is mirrored here. -/
def scrollbar.mouseHitTest (sb : scrollbar) (px py : ℚ) : scrollbarPart :=
  let mouseX := px - sb.position.left
  let mouseY := py - sb.position.top
  if sb.positionUpperArrow.isInside mouseX mouseY then
    scrollbarPart.UpperArrow
  else if sb.positionBottomArrow.isInside mouseX mouseY then
    scrollbarPart.BottomArrow
  else
    let upperSpaceRect : ScreenRectangle :=
      { left := sb.positionThumb.left
        top := sb.positionUpperArrow.bottom
        right := sb.positionThumb.right
        bottom := sb.positionThumb.top }
    let result1 :=
      if upperSpaceRect.isInside mouseX mouseY then scrollbarPart.UpperSpace
      else scrollbarPart.Thumb
    let bottomSpaceRect : ScreenRectangle :=
      { left := upperSpaceRect.left
        top := sb.positionThumb.bottom
        right := upperSpaceRect.right
        bottom := sb.positionBottomArrow.top }
    if bottomSpaceRect.isInside mouseX mouseY then scrollbarPart.BottomSpace
    else result1

/-- scrollbar.go line 312: containment in the control bounding rectangle. -/
def scrollbar.isMouseInside (sb : scrollbar) (px py : ℚ) : Bool :=
  sb.position.isInside px py

/-! ### Scroll commands emitted to the terminal collaborator -/

/-- Calls into the terminal collaborator made by the scrollbar
(ScreenScrollUp / ScreenScrollDown take a Go uint16). -/
inductive ScrollCommand where
  | screenScrollUp (lines : ℕ)
  | screenScrollDown (lines : ℕ)
  | scrollPageUp
  | scrollPageDown
deriving DecidableEq

/-- Go conversion int -> uint16: reduction modulo 2^16. -/
def toUint16 (n : ℤ) : ℕ := (n % 65536).toNat

/-- Go conversion float -> int truncates toward zero; on an exact
rational this is truncated division of numerator by denominator. -/
def ratTrunc (q : ℚ) : ℤ := q.num.tdiv q.den

/-- scrollbar.go lines 345-371, mouseMoveCallback: drag tracking.
Returns the new scrollbar state and the list of scroll commands emitted
to the terminal. -/
def scrollbar.mouseMoveCallback (sb : scrollbar) (px py : ℚ) :
    scrollbar × List ScrollCommand :=
  if sb.thumbIsDragging then
    let py2 := py - sb.position.top
    let minThumbTop := sb.positionUpperArrow.bottom
    let maxThumbTop := sb.positionBottomArrow.top - sb.positionThumb.height
    let newThumbTop := py2 - sb.offsetInThumbY
    let newPositionDelta : ℤ :=
      ratTrunc (((sb.maxScrollPosition : ℚ) *
          (newThumbTop - minThumbTop - sb.startedDraggingAtThumbTop)) /
        (maxThumbTop - minThumbTop))
    if newPositionDelta > sb.scrollPositionDelta then
      let scrollLines := newPositionDelta - sb.scrollPositionDelta
      (scrollbar.recalcElementPositions
          { sb with scrollPositionDelta := newPositionDelta },
        [ScrollCommand.screenScrollDown (toUint16 scrollLines)])
    else if newPositionDelta < sb.scrollPositionDelta then
      let scrollLines := sb.scrollPositionDelta - newPositionDelta
      (scrollbar.recalcElementPositions
          { sb with scrollPositionDelta := newPositionDelta },
        [ScrollCommand.screenScrollUp (toUint16 scrollLines)])
    else
      (scrollbar.recalcElementPositions sb, [])
  else
    (sb, [])

/-- A scrollbar value with all fields zero, as built by newScrollbar
(scrollbar.go lines 132-150) before any resize. -/
def sbZero : scrollbar :=
  { position := ⟨0, 0, 0, 0⟩
    positionUpperArrow := ⟨0, 0, 0, 0⟩
    positionBottomArrow := ⟨0, 0, 0, 0⟩
    positionThumb := ⟨0, 0, 0, 0⟩
    scrollPosition := 0
    maxScrollPosition := 0
    thumbIsDragging := false
    startedDraggingAtPosition := 0
    startedDraggingAtThumbTop := 0
    offsetInThumbY := 0
    scrollPositionDelta := 0 }

/-! ### C6: setPosition -/

/-- Claim C6 (amended): setPosition(max, position) sets the stored
maximum to position when max ≤ 0 and to max otherwise; the stored scroll
position is position clamped from above to the stored maximum (there is
no clamp from below at 0); afterwards scrollPosition ≤ maxScrollPosition
holds and the zone rectangles are recomputed from the new state. -/
theorem setPosition_characterization (sb : scrollbar) (max position : ℤ) :
    (sb.setPosition max position).maxScrollPosition =
        (if max ≤ 0 then position else max) ∧
      (sb.setPosition max position).scrollPosition =
        min position (sb.setPosition max position).maxScrollPosition ∧
      (sb.setPosition max position).scrollPosition ≤
        (sb.setPosition max position).maxScrollPosition ∧
      sb.setPosition max position =
        scrollbar.recalcElementPositions
          { sb with
            maxScrollPosition := (sb.setPosition max position).maxScrollPosition
            scrollPosition := (sb.setPosition max position).scrollPosition } := by
  refine ⟨?_, ?_, ?_, ?_⟩ <;>
    simp only [scrollbar.setPosition, scrollbar.recalcElementPositions] <;>
    first
      | rfl
      | (split_ifs <;> omega)
      | trivial

/-- Claim C6 counterexample: the call setPosition(10, -5) stores the
scroll position -5, which lies outside [0, 10]; the claimed invariant
0 ≤ scrollPosition fails. -/
theorem setPosition_no_lower_clamp_cex :
    (sbZero.setPosition 10 (-5)).scrollPosition = -5 ∧
      ¬ (0 ≤ (sbZero.setPosition 10 (-5)).scrollPosition) := by
  decide

/-! ### C2: thumb top monotone in position -/

/-- A scrollbar whose bounding rectangle is 20 px wide and 100 px tall:
the usable track (height minus thumb and both arrows) is nonnegative. -/
def sbMonoW : scrollbar :=
  { sbZero with position := { left := 0, top := 0, right := 20, bottom := 100 } }

/-- A scrollbar whose bounding rectangle is 20 px wide but only 50 px
tall, so the usable track height 50 - 3 * 20 is negative. -/
def sbShort : scrollbar :=
  { sbZero with position := { left := 0, top := 0, right := 20, bottom := 50 } }

/-- Claim C2 (amended): for max > 0 and 0 ≤ p1 ≤ p2 ≤ max, the thumb top
computed by recalcElementPositions is monotonically non-decreasing in the
scroll position, provided the control bounding rectangle is tall enough
that the usable track height (height - thumbHeight - 2 * arrowHeight,
that is height - 3 * width) is nonnegative. -/
theorem thumbTop_monotone (sb : scrollbar) (m p1 p2 : ℤ)
    (htrack : 3 * sb.position.width ≤ sb.position.height)
    (hm : 0 < m) (h0 : 0 ≤ p1) (h12 : p1 ≤ p2) (h2m : p2 ≤ m) :
    (scrollbar.recalcElementPositions
        { sb with scrollPosition := p1, maxScrollPosition := m }).positionThumb.top ≤
      (scrollbar.recalcElementPositions
        { sb with scrollPosition := p2, maxScrollPosition := m }).positionThumb.top := by
  have hm0 : m ≠ 0 := by omega
  have hmq : (0 : ℚ) < (m : ℚ) := by exact_mod_cast hm
  have hpq : (p1 : ℚ) ≤ (p2 : ℚ) := by exact_mod_cast h12
  have hc : (0 : ℚ) ≤
      sb.position.height - sb.position.width - sb.position.width * 2 := by
    linarith
  simp only [scrollbar.recalcElementPositions, hm0, ne_eq, not_false_iff,
    if_true]
  have hmul : (p1 : ℚ) * (sb.position.height - sb.position.width -
        sb.position.width * 2) ≤
      (p2 : ℚ) * (sb.position.height - sb.position.width -
        sb.position.width * 2) :=
    mul_le_mul_of_nonneg_right hpq hc
  have hdiv := div_le_div_of_nonneg_right hmul hmq.le
  linarith

/-- Claim C2 witness: concrete instance with a 20 x 100 control,
max = 10, positions 2 ≤ 5. -/
theorem thumbTop_monotone_witness :
    (scrollbar.recalcElementPositions
        { sbMonoW with scrollPosition := 2, maxScrollPosition := 10 }).positionThumb.top ≤
      (scrollbar.recalcElementPositions
        { sbMonoW with scrollPosition := 5, maxScrollPosition := 10 }).positionThumb.top :=
  thumbTop_monotone sbMonoW 10 2 5 (by norm_num [sbMonoW, sbZero,
    ScreenRectangle.width, ScreenRectangle.height]) (by decide) (by decide)
    (by decide) (by decide)

/-- Claim C2 counterexample: for the 20 px wide, 50 px tall control the
usable track is negative and the thumb top strictly decreases between
positions p1 = 0 and p2 = 1 with max = 1, although 0 ≤ p1 ≤ p2 ≤ max. -/
theorem thumbTop_monotone_cex :
    ((0 : ℤ) ≤ 0 ∧ (0 : ℤ) ≤ 1 ∧ (1 : ℤ) ≤ 1 ∧ (0 : ℤ) < 1) ∧
      ¬ ((scrollbar.recalcElementPositions
            { sbShort with scrollPosition := 0, maxScrollPosition := 1 }).positionThumb.top ≤
          (scrollbar.recalcElementPositions
            { sbShort with scrollPosition := 1, maxScrollPosition := 1 }).positionThumb.top) := by
  refine ⟨by decide, ?_⟩
  simp only [scrollbar.recalcElementPositions, sbShort, sbZero]
  norm_num [ScreenRectangle.width, ScreenRectangle.height]

/-! ### C1: drag-move incremental scroll -/

/-- Claim C1 (amended): while a thumb-drag session is open, a drag-move
call with pointer y-coordinate py converts it to control-local form
(py - control.top), computes newThumbTop = localY - pointerOffsetWithinThumb
and the target delta = trunc(max * (newThumbTop - minThumbTop -
startThumbTop) / (maxThumbTop - minThumbTop)) with minThumbTop the bottom
of the upper arrow zone and maxThumbTop the top of the bottom arrow zone
minus the thumb height; if delta exceeds the cumulative session delta it
emits exactly one scroll-down command of (delta - cumulativeDelta) mod
2^16 lines (the line count passes through a Go uint16), if smaller
exactly one scroll-up command of (cumulativeDelta - delta) mod 2^16
lines, if equal nothing, and the cumulative delta becomes delta exactly
when a command was emitted. -/
theorem drag_move_incremental_scroll (sb : scrollbar) (px py : ℚ)
    (delta : ℤ) (h : sb.thumbIsDragging = true)
    (hdelta : delta =
      ratTrunc (((sb.maxScrollPosition : ℚ) *
          (((py - sb.position.top) - sb.offsetInThumbY) -
            sb.positionUpperArrow.bottom - sb.startedDraggingAtThumbTop)) /
        ((sb.positionBottomArrow.top - sb.positionThumb.height) -
          sb.positionUpperArrow.bottom))) :
    (delta > sb.scrollPositionDelta →
        (sb.mouseMoveCallback px py).2 =
            [ScrollCommand.screenScrollDown
              (toUint16 (delta - sb.scrollPositionDelta))] ∧
          (sb.mouseMoveCallback px py).1.scrollPositionDelta = delta) ∧
      (delta < sb.scrollPositionDelta →
        (sb.mouseMoveCallback px py).2 =
            [ScrollCommand.screenScrollUp
              (toUint16 (sb.scrollPositionDelta - delta))] ∧
          (sb.mouseMoveCallback px py).1.scrollPositionDelta = delta) ∧
      (delta = sb.scrollPositionDelta →
        (sb.mouseMoveCallback px py).2 = [] ∧
          (sb.mouseMoveCallback px py).1.scrollPositionDelta =
            sb.scrollPositionDelta) := by
  subst hdelta
  simp only [scrollbar.mouseMoveCallback, h, if_true]
  refine ⟨fun hgt => ?_, fun hlt => ?_, fun heq => ?_⟩
  · rw [if_pos hgt]
    exact ⟨rfl, rfl⟩
  · rw [if_neg (by omega), if_pos hlt]
    exact ⟨rfl, rfl⟩
  · rw [if_neg (by omega), if_neg (by omega)]
    simp [scrollbar.recalcElementPositions]

/-- A scrollbar mid-drag: bounding rectangle 10 x 120, zones as computed
by recalcElementPositions at scroll position 0, drag started on the
thumb 5 px below its top edge, 90 scrollable lines. -/
def sbDrag : scrollbar :=
  { position := ⟨0, 0, 10, 120⟩
    positionUpperArrow := ⟨0, 0, 10, 10⟩
    positionBottomArrow := ⟨0, 110, 10, 120⟩
    positionThumb := ⟨0, 10, 10, 20⟩
    scrollPosition := 0
    maxScrollPosition := 90
    thumbIsDragging := true
    startedDraggingAtPosition := 0
    startedDraggingAtThumbTop := 10
    offsetInThumbY := 5
    scrollPositionDelta := 0 }

/-- Claim C1 witness: moving the pointer to y = 26 in the sbDrag session
gives target delta 1 and emits exactly one scroll-down command of one
line. -/
theorem drag_move_incremental_scroll_witness :
    (sbDrag.mouseMoveCallback 5 26).2 =
        [ScrollCommand.screenScrollDown 1] ∧
      (sbDrag.mouseMoveCallback 5 26).1.scrollPositionDelta = 1 :=
  (drag_move_incremental_scroll sbDrag 5 26 1 rfl
      (by simp only [sbDrag]
          norm_num [ratTrunc, ScreenRectangle.height])).1
    (by decide)

/-- The sbDrag mid-drag state with 65537 scrollable lines instead of 90. -/
def sbDragBig : scrollbar := { sbDrag with maxScrollPosition := 65537 }

/-- Claim C1 counterexample: in the sbDragBig session a drag-move to the
bottom of the track computes target delta 65537 while the cumulative
delta is 0, yet the emitted command scrolls down 1 line, not
65537 - 0 = 65537 lines, because the line count is truncated to a Go
uint16. -/
theorem drag_move_uint16_wrap_cex :
    ratTrunc (((sbDragBig.maxScrollPosition : ℚ) *
          (((115 - sbDragBig.position.top) - sbDragBig.offsetInThumbY) -
            sbDragBig.positionUpperArrow.bottom -
            sbDragBig.startedDraggingAtThumbTop)) /
        ((sbDragBig.positionBottomArrow.top - sbDragBig.positionThumb.height) -
          sbDragBig.positionUpperArrow.bottom)) = 65537 ∧
      sbDragBig.scrollPositionDelta = 0 ∧
      (sbDragBig.mouseMoveCallback 5 115).2 =
        [ScrollCommand.screenScrollDown 1] ∧
      ¬ (sbDragBig.mouseMoveCallback 5 115).2 =
        [ScrollCommand.screenScrollDown 65537] := by
  have hdelta : ratTrunc (((sbDragBig.maxScrollPosition : ℚ) *
        (((115 - sbDragBig.position.top) - sbDragBig.offsetInThumbY) -
          sbDragBig.positionUpperArrow.bottom -
          sbDragBig.startedDraggingAtThumbTop)) /
      ((sbDragBig.positionBottomArrow.top - sbDragBig.positionThumb.height) -
        sbDragBig.positionUpperArrow.bottom)) = 65537 := by
    simp only [sbDragBig, sbDrag]
    norm_num [ratTrunc, ScreenRectangle.height]
  refine ⟨hdelta, rfl, ?_, ?_⟩ <;>
    simp only [scrollbar.mouseMoveCallback, ScreenRectangle.height] at hdelta ⊢ <;>
    simp only [show sbDragBig.thumbIsDragging = true from rfl, if_true, hdelta,
      show sbDragBig.scrollPositionDelta = 0 from rfl] <;>
    norm_num [toUint16] <;>
    try decide

/-! ### Mouse protocol encoder (mouse.go lines 212-323)

The switch on the terminal mouse mode at the end of mouseButtonCallback
is embedded as a pure function of the mode, the glfw button number, the
action, the modifier bitmask and the zero-indexed cell coordinates.  The
code upstream of the switch (local selection, clipboard and URL
handling) does not write mouse-report bytes and is outside this model. -/

/-- glfw action values (glfw.Release, glfw.Press, glfw.Repeat). -/
inductive Action where
  | press
  | release
  | repeatEvt
deriving DecidableEq

/-- Terminal mouse tracking mode (terminal.MouseMode* constants, with a
catch-all constructor for any unrecognized value hitting the default
branch of the switch). -/
inductive MouseMode where
  | modeNone
  | modeX10
  | modeVT200
  | modeVT200Highlight
  | modeButtonEvent
  | modeAnyEvent
  | modeOther (n : ℕ)
deriving DecidableEq

/-- Observable outcome of the mode switch: bytes written to the
terminal, a normal return without bytes, or a Go panic. -/
inductive ProtocolOutcome where
  | write (bytes : List ℕ)
  | quiet
  | fatal (msg : String)
deriving DecidableEq

/-- Returns true exactly for the panic outcome. -/
def ProtocolOutcome.isFatal : ProtocolOutcome → Bool
  | .fatal _ => true
  | _ => false

/-- glfw modifier bits: ModShift = 1, ModControl = 2, ModAlt = 4,
ModSuper = 8. -/
def ModShift : ℕ := 1

def ModControl : ℕ := 2

def ModSuper : ℕ := 8

/-- UTF-8 encoding of a code point, as produced by the Go fmt %c verb
for a rune: one byte below 0x80, otherwise the standard multi-byte
encoding; surrogates and out-of-range values render as U+FFFD. -/
def utf8Encode (n : ℕ) : List ℕ :=
  if n < 0x80 then [n]
  else if n < 0x800 then [0xc0 + n / 64, 0x80 + n % 64]
  else if 0xd800 ≤ n ∧ n ≤ 0xdfff then [0xef, 0xbf, 0xbd]
  else if n < 0x10000 then
    [0xe0 + n / 4096, 0x80 + (n / 64) % 64, 0x80 + n % 64]
  else if n < 0x110000 then
    [0xf0 + n / 262144, 0x80 + (n / 4096) % 64, 0x80 + (n / 64) % 64,
      0x80 + n % 64]
  else [0xef, 0xbf, 0xbd]

/-- Bytes produced by fmt.Sprintf of the escape head and the three
value+32 runes (mouse.go lines 242 and 296). -/
def mousePacket (b tx ty : ℕ) : List ℕ :=
  [0x1b, 0x5b, 0x4d] ++ utf8Encode (b + 32) ++ utf8Encode (tx + 32) ++
    utf8Encode (ty + 32)

/-- mouse.go lines 220-323: the switch on the terminal mouse mode.
Inputs are the glfw button number (left = 0, right = 1, middle = 2), the
action, the modifier bitmask and the zero-indexed cell coordinates x, y;
tx and ty are the one-indexed coordinates computed at lines 153-154. -/
def mouseReport (mode : MouseMode) (button : ℕ) (action : Action)
    (modBits : ℕ) (x y : ℕ) : ProtocolOutcome :=
  let tx := x + 1
  let ty := y + 1
  match mode with
  | .modeNone => .quiet
  | .modeX10 =>
    if action = Action.press then .write (mousePacket button tx ty)
    else .quiet
  | .modeVT200 =>
    let b0? : Option ℕ :=
      match action with
      | .press =>
        if button = 0 then some 0
        else if button = 1 then some 1
        else if button = 2 then some 2
        else none
      | .release => some 3
      | .repeatEvt => none
    match b0? with
    | none => .quiet
    | some b0 =>
      let b1 := if Nat.land modBits ModShift > 0 then Nat.lor b0 4 else b0
      let b2 := if Nat.land modBits ModSuper > 0 then Nat.lor b1 8 else b1
      let b3 := if Nat.land modBits ModControl > 0 then Nat.lor b2 16 else b2
      .write (mousePacket b3 tx ty)
  | .modeVT200Highlight => .fatal "VT200 mouse highlight mode not supported"
  | .modeButtonEvent => .fatal "Mouse button event mode not supported"
  | .modeAnyEvent => .fatal "Mouse any event mode not supported"
  | .modeOther _ => .fatal "Unsupported mouse mode"

/-! ### C3: X10 encoding -/

/-- Claim C3 evaluation: an X10 left-button press at cell (0, 0) emits
the six bytes ESC [ M 0x20 0x21 0x21 and a release emits nothing, as
claimed; but a press at cell (95, 0) emits SEVEN bytes, because the
coordinate value 95 + 1 + 32 = 128 is rendered by the fmt %c verb as the
two-byte UTF-8 sequence 0xC2 0x80 instead of the single byte 0x80 the
fixed-width protocol requires. -/
theorem x10_encoding_eval :
    mouseReport MouseMode.modeX10 0 Action.press 0 0 0 =
        ProtocolOutcome.write [0x1b, 0x5b, 0x4d, 0x20, 0x21, 0x21] ∧
      mouseReport MouseMode.modeX10 0 Action.release 0 0 0 =
        ProtocolOutcome.quiet ∧
      mouseReport MouseMode.modeX10 0 Action.press 0 95 0 =
        ProtocolOutcome.write [0x1b, 0x5b, 0x4d, 0x20, 0xc2, 0x80, 0x21] ∧
      ¬ mouseReport MouseMode.modeX10 0 Action.press 0 95 0 =
        ProtocolOutcome.write [0x1b, 0x5b, 0x4d, 0x20, 0x80, 0x21] := by
  decide

/-! ### C4: VT200 release encoding -/

/-- Claim C4: in Normal (VT200) mode every button release encodes
Cb = 3 + modifier bits (Shift = 4, Super = 8, Control = 16), wire byte
Cb + 32, independent of which button was released, with the coordinates
encoded exactly as in X10 mode (one-indexed cell plus offset 32). -/
theorem vt200_release_encoding (button modBits x y : ℕ) :
    mouseReport MouseMode.modeVT200 button Action.release modBits x y =
      ProtocolOutcome.write ([0x1b, 0x5b, 0x4d] ++
        [3 + (if Nat.land modBits 1 > 0 then 4 else 0) +
            (if Nat.land modBits 8 > 0 then 8 else 0) +
            (if Nat.land modBits 2 > 0 then 16 else 0) + 32] ++
        utf8Encode (x + 1 + 32) ++ utf8Encode (y + 1 + 32)) := by
  have l34 : Nat.lor 3 4 = 7 := by decide
  have l38 : Nat.lor 3 8 = 11 := by decide
  have l316 : Nat.lor 3 16 = 19 := by decide
  have l78 : Nat.lor 7 8 = 15 := by decide
  have l716 : Nat.lor 7 16 = 23 := by decide
  have l1116 : Nat.lor 11 16 = 27 := by decide
  have l1516 : Nat.lor 15 16 = 31 := by decide
  simp only [mouseReport, ModShift, ModSuper, ModControl, mousePacket]
  by_cases h1 : Nat.land modBits 1 > 0 <;>
    by_cases h8 : Nat.land modBits 8 > 0 <;>
    by_cases h2 : Nat.land modBits 2 > 0 <;>
    simp only [h1, h8, h2, if_true, if_false, reduceIte] <;>
    norm_num [l34, l38, l316, l78, l716, l1116, l1516, utf8Encode]

/-! ### C5: unsupported modes -/

/-- Claim C5: for every pointer event, the Highlight, ButtonEvent and
AnyEvent modes, and any unrecognized mode value, signal the
unsupported-mode condition (a Go panic) and write no bytes; mode None
instead returns normally with no bytes, a distinct outcome. -/
theorem unsupported_modes_fatal (mode : MouseMode) (button : ℕ)
    (action : Action) (modBits x y : ℕ)
    (hmode : mode = MouseMode.modeVT200Highlight ∨
      mode = MouseMode.modeButtonEvent ∨ mode = MouseMode.modeAnyEvent ∨
      ∃ n, mode = MouseMode.modeOther n) :
    (mouseReport mode button action modBits x y).isFatal = true ∧
      (∀ bs, mouseReport mode button action modBits x y ≠
        ProtocolOutcome.write bs) ∧
      (mouseReport MouseMode.modeNone button action modBits x y =
        ProtocolOutcome.quiet) := by
  rcases hmode with h | h | h | ⟨n, h⟩ <;> subst h <;>
    exact ⟨rfl, fun bs => by simp [mouseReport], rfl⟩

/-- Claim C5 witness: concrete instance at ButtonEvent mode with a left
press at cell (0, 0). -/
theorem unsupported_modes_fatal_witness :
    (mouseReport MouseMode.modeButtonEvent 0 Action.press 0 0 0).isFatal =
        true ∧
      (∀ bs, mouseReport MouseMode.modeButtonEvent 0 Action.press 0 0 0 ≠
        ProtocolOutcome.write bs) ∧
      (mouseReport MouseMode.modeNone 0 Action.press 0 0 0 =
        ProtocolOutcome.quiet) :=
  unsupported_modes_fatal MouseMode.modeButtonEvent 0 Action.press 0 0 0
    (Or.inr (Or.inl rfl))

/-! ### C10: VT200 press of an unmapped button -/

/-- Claim C10: in Normal (VT200) mode a press of any button other than
left (0), middle-mapped glfw button 2 or right-mapped glfw button 1
returns normally with no bytes and is not reported as unsupported. -/
theorem vt200_other_button_press_silent (button modBits x y : ℕ)
    (hb : button ≠ 0 ∧ button ≠ 1 ∧ button ≠ 2) :
    mouseReport MouseMode.modeVT200 button Action.press modBits x y =
        ProtocolOutcome.quiet ∧
      (mouseReport MouseMode.modeVT200 button Action.press modBits
        x y).isFatal = false := by
  obtain ⟨h0, h1, h2⟩ := hb
  simp [mouseReport, h0, h1, h2, ProtocolOutcome.isFatal]

/-- Claim C10 witness: pressing glfw button 3 (first extra button) in
VT200 mode produces no bytes. -/
theorem vt200_other_button_press_silent_witness :
    mouseReport MouseMode.modeVT200 3 Action.press 0 0 0 =
        ProtocolOutcome.quiet ∧
      (mouseReport MouseMode.modeVT200 3 Action.press 0 0 0).isFatal =
        false :=
  vt200_other_button_press_silent 3 0 0 0 (by decide)

/-! ### C7: left-click counter (mouse.go lines 124-141) -/

/-- The click-tracking state held on the GUI struct: previous left-click
cell coordinates (Go uint16), previous click time in milliseconds, and
current click count (Go int). -/
structure ClickState where
  prevLeftClickX : ℕ
  prevLeftClickY : ℕ
  leftClickTime : ℤ
  leftClickCount : ℤ
deriving DecidableEq

/-- mouse.go lines 124-141, updateLeftClickCount: time.Since is embedded
as now minus the stored click time, in milliseconds; the deferred block
stores now and the new cell coordinates.  Returns the updated state and
the click count. -/
def updateLeftClickCount (s : ClickState) (x y : ℕ) (now : ℤ) :
    ClickState × ℤ :=
  let newCount :=
    if s.prevLeftClickX = x ∧ s.prevLeftClickY = y ∧
        now - s.leftClickTime < 500 then
      if s.leftClickCount + 1 > 3 then 3 else s.leftClickCount + 1
    else 1
  (⟨x, y, now, newCount⟩, newCount)

/-- Claim C7: the click counter returns 1 when the cell coordinates
differ from the previous click or at least 500 ms have elapsed, and
min(previousCount + 1, 3) otherwise; it always stores the new
coordinates, the timestamp and the returned count; consequently four
same-cell presses inside the 500 ms window count 1, 2, 3, 3 and a press
at another cell resets to 1 regardless of timing. -/
theorem updateLeftClickCount_spec :
    (∀ (s : ClickState) (x y : ℕ) (now : ℤ),
      ((updateLeftClickCount s x y now).2 =
          if x ≠ s.prevLeftClickX ∨ y ≠ s.prevLeftClickY ∨
              500 ≤ now - s.leftClickTime then 1
          else min (s.leftClickCount + 1) 3) ∧
        (updateLeftClickCount s x y now).1.prevLeftClickX = x ∧
        (updateLeftClickCount s x y now).1.prevLeftClickY = y ∧
        (updateLeftClickCount s x y now).1.leftClickTime = now ∧
        (updateLeftClickCount s x y now).1.leftClickCount =
          (updateLeftClickCount s x y now).2) ∧
      (((updateLeftClickCount ⟨0, 0, -1000000, 0⟩ 2 3 1000).2 = 1) ∧
        ((updateLeftClickCount
          (updateLeftClickCount ⟨0, 0, -1000000, 0⟩ 2 3 1000).1 2 3 1100).2 = 2) ∧
        ((updateLeftClickCount
          (updateLeftClickCount
            (updateLeftClickCount ⟨0, 0, -1000000, 0⟩ 2 3 1000).1
              2 3 1100).1 2 3 1300).2 = 3) ∧
        ((updateLeftClickCount
          (updateLeftClickCount
            (updateLeftClickCount
              (updateLeftClickCount ⟨0, 0, -1000000, 0⟩ 2 3 1000).1
                2 3 1100).1 2 3 1300).1 2 3 1600).2 = 3) ∧
        ((updateLeftClickCount
          (updateLeftClickCount
            (updateLeftClickCount
              (updateLeftClickCount
                (updateLeftClickCount ⟨0, 0, -1000000, 0⟩ 2 3 1000).1
                  2 3 1100).1 2 3 1300).1 2 3 1600).1 9 3 1650).2 = 1)) := by
  refine ⟨fun s x y now => ⟨?_, rfl, rfl, rfl, rfl⟩, by decide⟩
  simp only [updateLeftClickCount]
  split_ifs <;> omega

/-! ### C9: scrollbar hit test -/

/-- Claim C9 (amended): the hit test converts the point to control-local
coordinates and checks the zones in the fixed order of the source: a
point inside the upper-arrow rectangle yields UpperArrow; otherwise a
point inside the bottom-arrow rectangle yields BottomArrow; otherwise a
point inside the derived rectangle between the thumb and the bottom
arrow yields BottomSpace (this later check overwrites the upper-space
result); otherwise a point inside the derived rectangle between the
upper arrow and the thumb yields UpperSpace; and every point matching
none of these explicit zones yields Thumb, the permissive default.  When
zone rectangles overlap, the earlier zone in this order wins. -/
theorem mouseHitTest_zones (sb : scrollbar) (px py : ℚ) :
    (sb.positionUpperArrow.isInside (px - sb.position.left)
        (py - sb.position.top) = true →
      sb.mouseHitTest px py = scrollbarPart.UpperArrow) ∧
    (sb.positionUpperArrow.isInside (px - sb.position.left)
        (py - sb.position.top) = false →
      sb.positionBottomArrow.isInside (px - sb.position.left)
        (py - sb.position.top) = true →
      sb.mouseHitTest px py = scrollbarPart.BottomArrow) ∧
    (sb.positionUpperArrow.isInside (px - sb.position.left)
        (py - sb.position.top) = false →
      sb.positionBottomArrow.isInside (px - sb.position.left)
        (py - sb.position.top) = false →
      (ScreenRectangle.mk sb.positionThumb.left sb.positionThumb.bottom
        sb.positionThumb.right sb.positionBottomArrow.top).isInside
        (px - sb.position.left) (py - sb.position.top) = true →
      sb.mouseHitTest px py = scrollbarPart.BottomSpace) ∧
    (sb.positionUpperArrow.isInside (px - sb.position.left)
        (py - sb.position.top) = false →
      sb.positionBottomArrow.isInside (px - sb.position.left)
        (py - sb.position.top) = false →
      (ScreenRectangle.mk sb.positionThumb.left sb.positionThumb.bottom
        sb.positionThumb.right sb.positionBottomArrow.top).isInside
        (px - sb.position.left) (py - sb.position.top) = false →
      (ScreenRectangle.mk sb.positionThumb.left
        sb.positionUpperArrow.bottom sb.positionThumb.right
        sb.positionThumb.top).isInside (px - sb.position.left)
        (py - sb.position.top) = true →
      sb.mouseHitTest px py = scrollbarPart.UpperSpace) ∧
    (sb.positionUpperArrow.isInside (px - sb.position.left)
        (py - sb.position.top) = false →
      sb.positionBottomArrow.isInside (px - sb.position.left)
        (py - sb.position.top) = false →
      (ScreenRectangle.mk sb.positionThumb.left
        sb.positionUpperArrow.bottom sb.positionThumb.right
        sb.positionThumb.top).isInside (px - sb.position.left)
        (py - sb.position.top) = false →
      (ScreenRectangle.mk sb.positionThumb.left sb.positionThumb.bottom
        sb.positionThumb.right sb.positionBottomArrow.top).isInside
        (px - sb.position.left) (py - sb.position.top) = false →
      sb.mouseHitTest px py = scrollbarPart.Thumb) := by
  cases hUA : sb.positionUpperArrow.isInside (px - sb.position.left)
      (py - sb.position.top) <;>
    cases hBA : sb.positionBottomArrow.isInside (px - sb.position.left)
      (py - sb.position.top) <;>
    cases hUS : (ScreenRectangle.mk sb.positionThumb.left
      sb.positionUpperArrow.bottom sb.positionThumb.right
      sb.positionThumb.top).isInside (px - sb.position.left)
      (py - sb.position.top) <;>
    cases hBS : (ScreenRectangle.mk sb.positionThumb.left
      sb.positionThumb.bottom sb.positionThumb.right
      sb.positionBottomArrow.top).isInside (px - sb.position.left)
      (py - sb.position.top) <;>
    simp [scrollbar.mouseHitTest, hUA, hBA, hUS, hBS]

/-- A scrollbar in the state produced by recalcElementPositions for a
10 x 120 bounding rectangle at scroll position 0 of 90. -/
def sbHit : scrollbar :=
  { position := ⟨0, 0, 10, 120⟩
    positionUpperArrow := ⟨0, 0, 10, 10⟩
    positionBottomArrow := ⟨0, 110, 10, 120⟩
    positionThumb := ⟨0, 10, 10, 20⟩
    scrollPosition := 0
    maxScrollPosition := 90
    thumbIsDragging := false
    startedDraggingAtPosition := 0
    startedDraggingAtThumbTop := 0
    offsetInThumbY := 0
    scrollPositionDelta := 0 }

/-- Claim C9 witness: the zone characterization instantiated at the
sbHit state and the point (5, 5). -/
theorem mouseHitTest_zones_witness :
    (sbHit.positionUpperArrow.isInside (5 - sbHit.position.left)
        (5 - sbHit.position.top) = true →
      sbHit.mouseHitTest 5 5 = scrollbarPart.UpperArrow) ∧
    (sbHit.positionUpperArrow.isInside (5 - sbHit.position.left)
        (5 - sbHit.position.top) = false →
      sbHit.positionBottomArrow.isInside (5 - sbHit.position.left)
        (5 - sbHit.position.top) = true →
      sbHit.mouseHitTest 5 5 = scrollbarPart.BottomArrow) ∧
    (sbHit.positionUpperArrow.isInside (5 - sbHit.position.left)
        (5 - sbHit.position.top) = false →
      sbHit.positionBottomArrow.isInside (5 - sbHit.position.left)
        (5 - sbHit.position.top) = false →
      (ScreenRectangle.mk sbHit.positionThumb.left
        sbHit.positionThumb.bottom sbHit.positionThumb.right
        sbHit.positionBottomArrow.top).isInside (5 - sbHit.position.left)
        (5 - sbHit.position.top) = true →
      sbHit.mouseHitTest 5 5 = scrollbarPart.BottomSpace) ∧
    (sbHit.positionUpperArrow.isInside (5 - sbHit.position.left)
        (5 - sbHit.position.top) = false →
      sbHit.positionBottomArrow.isInside (5 - sbHit.position.left)
        (5 - sbHit.position.top) = false →
      (ScreenRectangle.mk sbHit.positionThumb.left
        sbHit.positionThumb.bottom sbHit.positionThumb.right
        sbHit.positionBottomArrow.top).isInside (5 - sbHit.position.left)
        (5 - sbHit.position.top) = false →
      (ScreenRectangle.mk sbHit.positionThumb.left
        sbHit.positionUpperArrow.bottom sbHit.positionThumb.right
        sbHit.positionThumb.top).isInside (5 - sbHit.position.left)
        (5 - sbHit.position.top) = true →
      sbHit.mouseHitTest 5 5 = scrollbarPart.UpperSpace) ∧
    (sbHit.positionUpperArrow.isInside (5 - sbHit.position.left)
        (5 - sbHit.position.top) = false →
      sbHit.positionBottomArrow.isInside (5 - sbHit.position.left)
        (5 - sbHit.position.top) = false →
      (ScreenRectangle.mk sbHit.positionThumb.left
        sbHit.positionUpperArrow.bottom sbHit.positionThumb.right
        sbHit.positionThumb.top).isInside (5 - sbHit.position.left)
        (5 - sbHit.position.top) = false →
      (ScreenRectangle.mk sbHit.positionThumb.left
        sbHit.positionThumb.bottom sbHit.positionThumb.right
        sbHit.positionBottomArrow.top).isInside (5 - sbHit.position.left)
        (5 - sbHit.position.top) = false →
      sbHit.mouseHitTest 5 5 = scrollbarPart.Thumb) :=
  mouseHitTest_zones sbHit 5 5

/-- The zone state recalcElementPositions derives from the valid but
short bounding rectangle 20 wide and 30 tall: the two 20 px arrow
squares overlap in the band 10 <= y < 20 of the 30 px track. -/
def sbOverlap : scrollbar :=
  scrollbar.recalcElementPositions
    { sbZero with position := { left := 0, top := 0, right := 20, bottom := 30 } }

/-- Claim C9 counterexample: in the sbOverlap state the point (5, 15)
lies inside the bottom-arrow rectangle, yet the hit test returns
UpperArrow, not BottomArrow, because the upper-arrow zone is checked
first and the two arrow rectangles overlap; so the claimed mapping
(BottomArrow for every point inside the bottom-arrow rectangle) is
false at a state reachable from a valid bounding rectangle. -/
theorem mouseHitTest_zones_cex :
    sbOverlap.positionBottomArrow.isInside (5 - sbOverlap.position.left)
        (15 - sbOverlap.position.top) = true ∧
      sbOverlap.mouseHitTest 5 15 = scrollbarPart.UpperArrow ∧
      ¬ sbOverlap.mouseHitTest 5 15 = scrollbarPart.BottomArrow := by
  refine ⟨?_, ?_, ?_⟩ <;>
    simp only [sbOverlap, sbZero, scrollbar.recalcElementPositions,
      scrollbar.mouseHitTest, ScreenRectangle.isInside,
      ScreenRectangle.width, ScreenRectangle.height] <;>
    norm_num <;>
    decide

/-! ### C8: pointer dispatcher (mouse.go lines 46-92)

The two widgets that can hold pointer capture are the main viewport (the
GUI itself) and the vertical scrollbar.  The handler-internal state
mutated by the forwarded callbacks never feeds back into the routing
decision, so the dispatcher is embedded as the capture state plus the
geometry used for hit-testing, and each dispatch returns the new capture
state together with the list of (target, event) deliveries. -/

/-- The two possible capture targets (gui and gui.vScrollbar). -/
inductive Widget where
  | viewport
  | scrollbarW
deriving DecidableEq

/-- Raw pointer events fed to the global glfw callbacks.  Button events
carry the cursor position obtained from w.GetCursorPos. -/
inductive InputEvent where
  | moveEvt (px py : ℚ)
  | buttonEvt (button : ℕ) (action : Action) (px py : ℚ)
deriving DecidableEq

/-- A callback invocation forwarded to a widget, with already-scaled
coordinates. -/
inductive Delivery where
  | deliverMove (target : Widget) (px py : ℚ)
  | deliverButton (target : Widget) (button : ℕ) (action : Action)
      (px py : ℚ)
deriving DecidableEq

/-- The widget a delivery went to. -/
def Delivery.target : Delivery → Widget
  | .deliverMove t _ _ => t
  | .deliverButton t _ _ _ _ => t

/-- Dispatcher-relevant GUI state: DPI scale, renderer area (used by
gui.isMouseInside, mouse.go line 89), the scrollbar bounding rectangle
when a scrollbar exists, and the capture state (catchedMouseHandler,
mouseCatchedOnButton). -/
structure DispatchState where
  scale : ℚ
  areaX : ℚ
  areaY : ℚ
  areaWidth : ℚ
  areaHeight : ℚ
  vScrollbarRect : Option ScreenRectangle
  catchedMouseHandler : Option Widget
  mouseCatchedOnButton : ℕ
deriving DecidableEq

/-- mouse.go line 89, gui.isMouseInside over the renderer area. -/
def DispatchState.isMouseInside (g : DispatchState) (px py : ℚ) : Bool :=
  decide (g.areaX ≤ px) && decide (px < g.areaX + g.areaWidth) &&
    decide (g.areaY ≤ py) && decide (py < g.areaY + g.areaHeight)

/-- mouse.go line 84, catchMouse. -/
def catchMouse (g : DispatchState) (newHandler : Option Widget)
    (button : ℕ) : DispatchState :=
  { g with
    catchedMouseHandler := newHandler
    mouseCatchedOnButton := button }

/-- mouse.go lines 46-58, globalMouseMoveCallback: scales the
coordinates, then routes to the capture target if any, else to the
viewport when the pointer is inside it, else to the scrollbar when one
exists and contains the pointer. -/
def globalMouseMoveCallback (g : DispatchState) (px py : ℚ) :
    DispatchState × List Delivery :=
  let px2 := px / g.scale
  let py2 := py / g.scale
  match g.catchedMouseHandler with
  | some h => (g, [Delivery.deliverMove h px2 py2])
  | none =>
    if g.isMouseInside px2 py2 then
      (g, [Delivery.deliverMove Widget.viewport px2 py2])
    else
      match g.vScrollbarRect with
      | some rect =>
        if rect.isInside px2 py2 then
          (g, [Delivery.deliverMove Widget.scrollbarW px2 py2])
        else (g, [])
      | none => (g, [])

/-- mouse.go lines 60-82, globalMouseButtonCallback: with a capture
active the event is forwarded to the capture target and then, when the
released button equals the capture button, the capture is cleared;
without a capture a press inside a widget establishes capture on it
before the event is forwarded. -/
def globalMouseButtonCallback (g : DispatchState) (button : ℕ)
    (action : Action) (px py : ℚ) : DispatchState × List Delivery :=
  let mouseX := px / g.scale
  let mouseY := py / g.scale
  match g.catchedMouseHandler with
  | some h =>
    let g2 :=
      if action = Action.release ∧ button = g.mouseCatchedOnButton then
        catchMouse g none 0
      else g
    (g2, [Delivery.deliverButton h button action mouseX mouseY])
  | none =>
    if g.isMouseInside mouseX mouseY then
      let g2 :=
        if action = Action.press then catchMouse g (some Widget.viewport) button
        else g
      (g2, [Delivery.deliverButton Widget.viewport button action mouseX mouseY])
    else
      match g.vScrollbarRect with
      | some rect =>
        if rect.isInside mouseX mouseY then
          let g2 :=
            if action = Action.press then
              catchMouse g (some Widget.scrollbarW) button
            else g
          (g2,
            [Delivery.deliverButton Widget.scrollbarW button action mouseX
              mouseY])
        else (g, [])
      | none => (g, [])

/-- One raw event through the appropriate global callback. -/
def dispatchEvent (g : DispatchState) (e : InputEvent) :
    DispatchState × List Delivery :=
  match e with
  | .moveEvt px py => globalMouseMoveCallback g px py
  | .buttonEvt b a px py => globalMouseButtonCallback g b a px py

/-- A whole event sequence, accumulating deliveries. -/
def dispatchRun (g : DispatchState) :
    List InputEvent → DispatchState × List Delivery
  | [] => (g, [])
  | e :: rest =>
    let r := dispatchEvent g e
    let rr := dispatchRun r.1 rest
    (rr.1, r.2 ++ rr.2)

/-- True exactly when the event is a release of button L. -/
def isReleaseOf (L : ℕ) : InputEvent → Bool
  | .buttonEvt b Action.release _ _ => decide (b = L)
  | _ => false

/-- Single-step preservation: with capture held by the scrollbar on
button L, any event that is not a release of L is delivered to the
scrollbar only and leaves the capture unchanged. -/
theorem dispatch_step_captured (g : DispatchState) (L : ℕ) (e : InputEvent)
    (h1 : g.catchedMouseHandler = some Widget.scrollbarW)
    (h2 : g.mouseCatchedOnButton = L)
    (he : isReleaseOf L e = false) :
    (∀ d ∈ (dispatchEvent g e).2, d.target = Widget.scrollbarW) ∧
      (dispatchEvent g e).1.catchedMouseHandler = some Widget.scrollbarW ∧
      (dispatchEvent g e).1.mouseCatchedOnButton = L := by
  cases e with
  | moveEvt px py =>
    simp [dispatchEvent, globalMouseMoveCallback, h1, Delivery.target, h2]
  | buttonEvt b a px py =>
    have hcond : ¬ (a = Action.release ∧ b = L) := by
      rintro ⟨rfl, rfl⟩
      simp [isReleaseOf] at he
    simp [dispatchEvent, globalMouseButtonCallback, h1, h2, hcond,
      Delivery.target]

/-- Trace-level preservation by induction over the event list. -/
theorem dispatch_trace_captured (L : ℕ) (evs : List InputEvent) :
    ∀ g : DispatchState,
      g.catchedMouseHandler = some Widget.scrollbarW →
      g.mouseCatchedOnButton = L →
      (∀ e ∈ evs, isReleaseOf L e = false) →
      (∀ d ∈ (dispatchRun g evs).2, d.target = Widget.scrollbarW) ∧
        (dispatchRun g evs).1.catchedMouseHandler =
          some Widget.scrollbarW ∧
        (dispatchRun g evs).1.mouseCatchedOnButton = L := by
  induction evs with
  | nil =>
    intro g h1 h2 _
    exact ⟨by simp [dispatchRun], by simpa [dispatchRun] using h1,
      by simpa [dispatchRun] using h2⟩
  | cons e rest ih =>
    intro g h1 h2 hall
    have he : isReleaseOf L e = false := hall e (List.mem_cons_self e rest)
    obtain ⟨hd, hc1, hc2⟩ := dispatch_step_captured g L e h1 h2 he
    have hrest : ∀ x ∈ rest, isReleaseOf L x = false := fun x hx =>
      hall x (List.mem_cons_of_mem e hx)
    obtain ⟨ihd, ihc1, ihc2⟩ := ih (dispatchEvent g e).1 hc1 hc2 hrest
    refine ⟨?_, ?_, ?_⟩
    · intro d hdmem
      simp only [dispatchRun, List.mem_append] at hdmem
      rcases hdmem with hmem | hmem
      · exact hd d hmem
      · exact ihd d hmem
    · simpa [dispatchRun] using ihc1
    · simpa [dispatchRun] using ihc2

/-- Claim C8: once capture is established on the scrollbar for button L,
every event dispatched while L is held (that is, before a release of L)
is delivered exclusively to the scrollbar — in particular no move event
reaches the viewport, whatever the pointer coordinates — the capture
survives all such events, and a release of L is itself forwarded to the
scrollbar, after which the capture is cleared. -/
theorem capture_exclusive_routing (g : DispatchState) (L : ℕ)
    (evs : List InputEvent)
    (h1 : g.catchedMouseHandler = some Widget.scrollbarW)
    (h2 : g.mouseCatchedOnButton = L)
    (hall : ∀ e ∈ evs, isReleaseOf L e = false) :
    ((∀ d ∈ (dispatchRun g evs).2, d.target = Widget.scrollbarW) ∧
        (dispatchRun g evs).1.catchedMouseHandler =
          some Widget.scrollbarW ∧
        (dispatchRun g evs).1.mouseCatchedOnButton = L) ∧
      ∀ px py,
        (globalMouseButtonCallback g L Action.release px py).2 =
            [Delivery.deliverButton Widget.scrollbarW L Action.release
              (px / g.scale) (py / g.scale)] ∧
          (globalMouseButtonCallback g L Action.release px
            py).1.catchedMouseHandler = none := by
  refine ⟨dispatch_trace_captured L evs g h1 h2 hall, fun px py => ?_⟩
  constructor <;>
    simp [globalMouseButtonCallback, h1, h2, catchMouse]

/-- A dispatcher state with capture held by the scrollbar on the left
button: 2x scale, viewport area 100 x 100 at the origin, scrollbar strip
to its right. -/
def gCap : DispatchState :=
  { scale := 2
    areaX := 0
    areaY := 0
    areaWidth := 100
    areaHeight := 100
    vScrollbarRect := some ⟨100, 0, 120, 100⟩
    catchedMouseHandler := some Widget.scrollbarW
    mouseCatchedOnButton := 0 }

/-- Events while the left button stays held: a move far outside the
scrollbar rectangle, a press of another button, and a move inside the
viewport area. -/
def evsCap : List InputEvent :=
  [InputEvent.moveEvt 5000 5000,
    InputEvent.buttonEvt 1 Action.press 10 10,
    InputEvent.moveEvt 10 10]

/-- Claim C8 witness: concrete run from the captured state over evsCap;
every delivery targets the scrollbar, the capture survives, and a left
release is forwarded to the scrollbar and then clears the capture. -/
theorem capture_exclusive_routing_witness :
    ((∀ d ∈ (dispatchRun gCap evsCap).2, d.target = Widget.scrollbarW) ∧
        (dispatchRun gCap evsCap).1.catchedMouseHandler =
          some Widget.scrollbarW ∧
        (dispatchRun gCap evsCap).1.mouseCatchedOnButton = 0) ∧
      ∀ px py,
        (globalMouseButtonCallback gCap 0 Action.release px py).2 =
            [Delivery.deliverButton Widget.scrollbarW 0 Action.release
              (px / gCap.scale) (py / gCap.scale)] ∧
          (globalMouseButtonCallback gCap 0 Action.release px
            py).1.catchedMouseHandler = none :=
  capture_exclusive_routing gCap 0 evsCap rfl rfl (by decide)

end Aminal
